import Mathlib

/-!
Verification development for the safe SQL gateway and execution-log
subsystem of the tool_set backend.

The definitions below are a shallow embedding of the Python source:

- the statement classifier from functions/db/db_funs.py
  together with the sql_query entry point,
- the connection layer SimpleSQLDB.execute / SimpleSQLDB.executemany,
  database-name resolution and configuration lookup from
  utils/db/sql_db.py,
- the execution logger write/query paths from utils/exe_log.py,
  including the append-only JSON-lines file backend.

Machine strings are modeled as Lean strings restricted to the ASCII
behaviour of the Python operations involved (lower/upper casing, the
whitespace class, and the word-character class of the regular
expressions used by the source).  Wall-clock time is modeled as an
explicit millisecond counter threaded through the connection layer.
Effects of the underlying database driver (connection acquisition,
cursor execution, commit, fetched rows) are supplied by an explicit
environment, with exceptions modeled as Option-valued error messages.
-/

/-- Model of the Python whitespace class (str.strip and the regex class
backslash-s), restricted to ASCII. -/
def isSpaceChar (c : Char) : Bool :=
  c = ' ' || c = '\t' || c = '\n' || c = '\r' || c = '\x0b' || c = '\x0c'

/-- Model of the regex word-character class used by the source patterns,
restricted to ASCII: alphanumeric or underscore. -/
def isWordCharB (c : Char) : Bool := c.isAlphanum || c = '_'

/-- Whether a block-comment terminator occurs anywhere in the list; the
regex for block comments only matches when a terminator follows. -/
def hasBlockClose : List Char → Bool
  | [] => false
  | '*' :: '/' :: _ => true
  | _ :: rest => hasBlockClose rest

/-- Model of the substitution removing non-greedy block comments
(slash-star up to the nearest star-slash, spanning newlines).  The flag
records whether the scanner is currently inside a comment.  An opening
marker with no later terminator is left in place, as the regex finds no
match there. -/
def removeBlockGo : Bool → List Char → List Char
  | false, [] => []
  | false, '/' :: '*' :: rest =>
    if hasBlockClose rest then removeBlockGo true rest else '/' :: '*' :: rest
  | false, c :: rest => c :: removeBlockGo false rest
  | true, [] => []
  | true, '*' :: '/' :: rest => removeBlockGo false rest
  | true, _ :: rest => removeBlockGo true rest

/-- Removal of block comments, as performed first by the classifier. -/
def removeBlockComments (l : List Char) : List Char := removeBlockGo false l

/-- Model of the multiline substitution removing line comments (two
dashes up to end of line, the newline itself preserved).  The flag
records whether the scanner is inside a line comment. -/
def dropLineComment : Bool → List Char → List Char
  | _, [] => []
  | true, c :: rest =>
    if c = '\n' then c :: dropLineComment false rest else dropLineComment true rest
  | false, '-' :: '-' :: rest => dropLineComment true rest
  | false, c :: rest => c :: dropLineComment false rest

/-- Removal of line comments. -/
def removeLineComments (l : List Char) : List Char := dropLineComment false l

/-- Model of Python str.strip: drop leading and trailing whitespace. -/
def pyStrip (l : List Char) : List Char :=
  ((l.dropWhile isSpaceChar).reverse.dropWhile isSpaceChar).reverse

/-- Model of the substitution collapsing every maximal whitespace run to
a single space.  The flag records whether the previous character was
part of a run already collapsed. -/
def collapseWsGo : Bool → List Char → List Char
  | _, [] => []
  | inRun, c :: rest =>
    if isSpaceChar c then
      if inRun then collapseWsGo true rest else ' ' :: collapseWsGo true rest
    else c :: collapseWsGo false rest

/-- Whitespace collapsing as performed after stripping. -/
def collapseWs (l : List Char) : List Char := collapseWsGo false l

/-- Cleaned statement text as computed by the classifier: block comments
removed, then line comments, then stripped and whitespace-collapsed. -/
def gateCleaned (sql : String) : List Char :=
  collapseWs (pyStrip (removeLineComments (removeBlockComments sql.toList)))

/-- Cleaned statement text lower-cased, the form the classifier
inspects. -/
def gateLower (sql : String) : List Char := (gateCleaned sql).map Char.toLower

/-- Allowed leading keywords of the classifier. -/
def allowedStarts : List (List Char) :=
  [("select").toList, ("with").toList, ("explain").toList, ("pragma").toList]

/-- Deny-list of whole-word keywords of the classifier. -/
def forbiddenKeywords : List (List Char) :=
  [("insert").toList, ("update").toList, ("delete").toList, ("drop").toList,
   ("create").toList, ("alter").toList, ("truncate").toList, ("grant").toList,
   ("revoke").toList, ("commit").toList, ("rollback").toList, ("savepoint").toList,
   ("release").toList, ("exec").toList, ("execute").toList, ("call").toList,
   ("declare").toList, ("set").toList, ("begin").toList, ("end").toList]

/-- Word-boundary condition on the left of a candidate match position:
start of text, or a non-word character before it. -/
def boundaryOk : Option Char → Bool
  | none => true
  | some p => !isWordCharB p

/-- Word-boundary condition on the right of a candidate match: end of
text, or a non-word character next. -/
def wordEndOk : List Char → Bool
  | [] => true
  | c :: _ => !isWordCharB c

/-- Scan for a whole-word occurrence of the keyword, keeping track of
the previous character for the left word boundary. -/
def containsWordGo (kw : List Char) : Option Char → List Char → Bool
  | _, [] => false
  | prev, c :: rest =>
    (boundaryOk prev && List.isPrefixOf kw (c :: rest)
      && wordEndOk (List.drop kw.length (c :: rest)))
    || containsWordGo kw (some c) rest

/-- Model of searching for a whole-word keyword with word boundaries on
both sides. -/
def containsWord (kw l : List Char) : Bool := containsWordGo kw none l

/-- Whether the cleaned lower-cased text starts with one of the allowed
keywords. -/
def startsAllowed (l : List Char) : Bool := allowedStarts.any (fun w => List.isPrefixOf w l)

/-- Whether the cleaned lower-cased text contains any deny-list keyword
as a whole word. -/
def hasForbidden (l : List Char) : Bool := forbiddenKeywords.any (fun kw => containsWord kw l)

/-- Embedding of the statement classifier from functions/db/db_funs.py.
The allowed-prefix loop returns true on a match; the deny-list loop
returns false on a match; the fall-through also returns false. -/
def _is_query_only (sql : String) : Bool :=
  let sqlLower := gateLower sql
  if startsAllowed sqlLower then true
  else if hasForbidden sqlLower then false
  else false

example : _is_query_only ("SELECT * FROM t; DROP TABLE t") = true := by decide
example : _is_query_only ("DROP TABLE t") = false := by decide
example : _is_query_only ("  ") = false := by decide
example : _is_query_only ("/* c */ WITH x AS (SELECT 1) SELECT 2 -- z") = true := by decide
example : _is_query_only ("foobar baz") = false := by decide

/-!
Database configuration and statement routing, from utils/db/sql_db.py.
Configuration sections are modeled as association lists from logical
database names to opaque per-backend parameter blobs, mirroring the
JSON configuration file; dictionary keys are unique, so the first
association wins as in the source dictionaries.
-/

/-- Engine kind of a configured database. -/
inductive DbKind
  | mysql
  | sqlite
deriving DecidableEq, Repr

/-- Loaded database configuration: the mysql and sqlite sections, each
mapping a logical name to its connection parameters (kept opaque). -/
structure DbConfig where
  mysql : List (String × String)
  sqlite : List (String × String)
deriving DecidableEq, Repr

/-- First configured embedded-file (SQLite) database name, with the
default used when the section is empty. -/
def _get_first_sqlite_db (cfg : DbConfig) : String :=
  match cfg.sqlite with
  | [] => ("cache")
  | (n, _) :: _ => n

/-- Python repr of a list of strings, as interpolated into the
configuration-error message. -/
def pyListRepr (xs : List String) : String :=
  "[" ++ String.intercalate (", ") (xs.map (fun s => "\x27" ++ s ++ "\x27")) ++ "]"

/-- Error message raised when a logical database name resolves to no
configured descriptor. -/
def dbNotFoundMsg (cfg : DbConfig) (name : String) : String :=
  "Database \x27" ++ name ++ "\x27 not found in configuration. " ++
  "Available MySQL databases: " ++ pyListRepr (cfg.mysql.map Prod.fst) ++
  ", Available SQLite databases: " ++ pyListRepr (cfg.sqlite.map Prod.fst)

/-- Configuration lookup: the mysql section is consulted first, then
the sqlite section; an unknown name is a ValueError, modeled as the
error branch of Except. -/
def _get_db_config (cfg : DbConfig) (name : String) : Except String (DbKind × String) :=
  match cfg.mysql.lookup name with
  | some p => Except.ok (DbKind.mysql, p)
  | none =>
    match cfg.sqlite.lookup name with
    | some p => Except.ok (DbKind.sqlite, p)
    | none => Except.error (dbNotFoundMsg cfg name)

/-!
Parsing a database name out of the statement text.  The source cleans
the text (line comments, then block comments, then whitespace
normalization) and searches five regex patterns in a fixed order, each
of the shape KEYWORD, one-or-more whitespace, optional quote, captured
word run, optional quote, dot, optional quote, word run.  Because a
word character is never a quote or a dot, the greedy word runs and the
optional quotes of the regex admit no useful backtracking, so the
deterministic scanner below computes exactly the leftmost regex match.
-/

/-- Backquote character, one of the two admissible name quotes. -/
def backquoteChar : Char := Char.ofNat 96

/-- Case-insensitive literal match of a lower-case keyword, returning
the rest of the input. -/
def matchCI : List Char → List Char → Option (List Char)
  | [], l => some l
  | _ :: _, [] => none
  | k :: ks, c :: cs => if Char.toLower c = k then matchCI ks cs else none

/-- Match of one-or-more whitespace characters (greedy). -/
def skipWs1 : List Char → Option (List Char)
  | [] => none
  | c :: rest => if isSpaceChar c then some (rest.dropWhile isSpaceChar) else none

/-- Match of an optional single name quote (backquote or double
quote). -/
def matchOptQuote (l : List Char) : List Char :=
  match l with
  | [] => []
  | c :: rest => if c = '"' || c = backquoteChar then rest else l

/-- Match of a single literal character. -/
def matchLit (ch : Char) : List Char → Option (List Char)
  | [] => none
  | c :: rest => if c = ch then some rest else none

/-- Match of a keyword sequence with mandatory whitespace between the
words (one word for FROM-like patterns, two for INSERT INTO and
DELETE FROM). -/
def matchKws : List (List Char) → List Char → Option (List Char)
  | [], l => some l
  | [kw], l => matchCI kw l
  | kw :: kws, l =>
    match matchCI kw l with
    | none => none
    | some l1 =>
      match skipWs1 l1 with
      | none => none
      | some l2 => matchKws kws l2

/-- Attempt of the full qualified-reference pattern at the current
position, returning the captured database name (original case). -/
def matchQualAt (kws : List (List Char)) (l : List Char) : Option (List Char) :=
  match matchKws kws l with
  | none => none
  | some l1 =>
    match skipWs1 l1 with
    | none => none
    | some l2 =>
      let l3 := matchOptQuote l2
      let w1 := l3.takeWhile isWordCharB
      let l4 := l3.dropWhile isWordCharB
      if w1.isEmpty then none
      else
        let l5 := matchOptQuote l4
        match matchLit '.' l5 with
        | none => none
        | some l6 =>
          let l7 := matchOptQuote l6
          let w2 := l7.takeWhile isWordCharB
          if w2.isEmpty then none else some w1

/-- Leftmost search of one pattern over the cleaned text. -/
def searchQual (kws : List (List Char)) : List Char → Option (List Char)
  | [] => none
  | c :: rest =>
    match matchQualAt kws (c :: rest) with
    | some w => some w
    | none => searchQual kws rest

/-- Cleaned statement text as computed before the routing parse: line
comments removed, then block comments, then split-and-join whitespace
normalization (equivalent to strip plus collapse). -/
def parseCleaned (sql : String) : List Char :=
  collapseWs (pyStrip (removeBlockComments (removeLineComments sql.toList)))

/-- Embedding of the routing parser: the five patterns are tried in
source order and the first pattern with a match anywhere wins. -/
def _parse_db_name_from_sql (sql : String) : Option String :=
  let cl := parseCleaned sql
  match searchQual [("from").toList] cl with
  | some w => some (String.mk w)
  | none =>
    match searchQual [("join").toList] cl with
    | some w => some (String.mk w)
    | none =>
      match searchQual [("update").toList] cl with
      | some w => some (String.mk w)
      | none =>
        match searchQual [("insert").toList, ("into").toList] cl with
        | some w => some (String.mk w)
        | none =>
          match searchQual [("delete").toList, ("from").toList] cl with
          | some w => some (String.mk w)
          | none => none

/-- Embedding of database-name resolution: an explicit name is used
verbatim; otherwise a truthy parsed name wins; otherwise the first
configured sqlite database. -/
def _resolve_db_name (cfg : DbConfig) (sql : String) (dbName : Option String) : String :=
  match dbName with
  | some n => n
  | none =>
    match _parse_db_name_from_sql sql with
    | some parsed => if parsed = ("") then _get_first_sqlite_db cfg else parsed
    | none => _get_first_sqlite_db cfg

example : _parse_db_name_from_sql ("SELECT * FROM analytics.events") = some ("analytics") := by decide
example : _parse_db_name_from_sql ("SELECT 1") = none := by decide
example : _parse_db_name_from_sql ("select x from \x22Analytics\x22.ev") = some ("Analytics") := by decide
example : _parse_db_name_from_sql ("INSERT  INTO db1.t VALUES (1)") = some ("db1") := by decide

/-!
The connection layer.  A statement execution interacts with the
database driver through a cursor; those effects are supplied by an
explicit environment: the durations (in milliseconds) of connection
acquisition and of statement execution, the exception raised by each
driver step if any, and the cursor outputs (description, fetched rows,
rowcount, lastrowid).  The audit hook write_sql_log never raises (its
implementation catches everything), so it is modeled as appending one
entry to the trace.
-/

/-- Execution result dictionary (the SQLResult TypedDict of the source,
with total equal false): a field holding none models an absent key. -/
structure SQLResult where
  success : Bool
  data : Option (List (List (String × String))) := none
  row_count : Option Int := none
  columns : Option (List String) := none
  error : Option String := none
  lastrowid : Option (Option Int) := none
  message : Option String := none
deriving DecidableEq, Repr

/-- One audit entry produced by write_sql_log: the command text (with
its parameter annotation), the result object handed to the logger, and
the measured duration. -/
structure SqlLogEntry where
  command : String
  result : SQLResult
  time_cost_ms : Nat
deriving DecidableEq, Repr

/-- Driver-side effects of one connection-layer call.  t0 is the clock
value read at function entry; each Option String is the message of the
exception the corresponding driver step raises, none meaning the step
succeeds. -/
structure ExecEnv where
  t0 : Nat
  connDur : Nat
  connErr : Option String
  execDur : Nat
  execErr : Option String
  commitErr : Option String
  cursorCols : List String
  rawRows : List (List String)
  rowcount : Int
  lastrowidVal : Option Int
deriving DecidableEq, Repr

/-- Observable outcome of one connection-layer call: the returned
result, the audit entries written, whether the connection was
committed, and the statement texts handed to the cursor. -/
structure ExecTrace where
  result : SQLResult
  logs : List SqlLogEntry
  committed : Bool
  executedStmts : List String
deriving DecidableEq, Repr

/-- Placeholder translation for the client-server engine: every
question mark becomes a percent-s. -/
def replaceQMarks : List Char → List Char
  | [] => []
  | '?' :: rest => '%' :: 's' :: replaceQMarks rest
  | c :: rest => c :: replaceQMarks rest

/-- Per-engine placeholder conversion of the statement text. -/
def convertPlaceholders (k : DbKind) (sql : String) : String :=
  match k with
  | DbKind.mysql => String.mk (replaceQMarks sql.toList)
  | DbKind.sqlite => sql

/-- Command text recorded in the audit entry: the statement, annotated
with the parameter rendering when parameters were supplied.  Parameter
tuples are modeled by their Python string rendering. -/
def cmdWithParams (sql : String) (params : Option String) : String :=
  match params with
  | some p => sql ++ " | Params: " ++ p
  | none => sql

/-- Branch test of the connection layer: the literal statement text,
stripped and upper-cased, starts with SELECT. -/
def startsWithSelect (sql : String) : Bool :=
  List.isPrefixOf (("SELECT").toList) ((pyStrip sql.toList).map Char.toUpper)

/-- Statement text handed to the cursor by execute: converted when
truthy parameters are supplied, verbatim otherwise. -/
def attemptedStmt (k : DbKind) (sql : String) (params : Option String) : String :=
  match params with
  | some _ => convertPlaceholders k sql
  | none => sql

/-- Embedding of SimpleSQLDB.execute.  The clock starts at entry (t0),
advances by connDur during connection acquisition and by execDur
during cursor execution; every logged duration is the current clock
minus t0, exactly as the source computes it.  Any driver exception is
caught by the except block, which builds the failure result, logs it
with the same duration measurement, and returns it. -/
def SimpleSQLDB.execute (k : DbKind) (env : ExecEnv) (sql : String)
    (params : Option String) : ExecTrace :=
  match env.connErr with
  | some msg =>
    let result : SQLResult := { success := false, error := some msg }
    { result := result
      logs := [⟨cmdWithParams sql params, result, (env.t0 + env.connDur) - env.t0⟩]
      committed := false
      executedStmts := [] }
  | none =>
    let stmt := attemptedStmt k sql params
    match env.execErr with
    | some msg =>
      let result : SQLResult := { success := false, error := some msg }
      { result := result
        logs := [⟨cmdWithParams sql params, result, (env.t0 + env.connDur + env.execDur) - env.t0⟩]
        committed := false
        executedStmts := [stmt] }
    | none =>
      if startsWithSelect sql then
        let columns := env.cursorCols
        let data := env.rawRows.map (fun row => columns.zip row)
        let result : SQLResult :=
          { success := true, data := some data
            row_count := some (data.length : Int), columns := some columns }
        { result := result
          logs := [⟨cmdWithParams sql params, result, (env.t0 + env.connDur + env.execDur) - env.t0⟩]
          committed := false
          executedStmts := [stmt] }
      else
        match env.commitErr with
        | some msg =>
          let result : SQLResult := { success := false, error := some msg }
          { result := result
            logs := [⟨cmdWithParams sql params, result, (env.t0 + env.connDur + env.execDur) - env.t0⟩]
            committed := false
            executedStmts := [stmt] }
        | none =>
          let result : SQLResult :=
            { success := true, row_count := some env.rowcount
              lastrowid := some env.lastrowidVal }
          { result := result
            logs := [⟨cmdWithParams sql params, result, (env.t0 + env.connDur + env.execDur) - env.t0⟩]
            committed := true
            executedStmts := [stmt] }

/-- Batch preview recorded by executemany: Python rendering of the
first three parameter tuples, with an ellipsis when more follow. -/
def batchPreview (paramsList : List String) : String :=
  "[" ++ String.intercalate (", ") (paramsList.take 3) ++ "]" ++
  (if paramsList.length > 3 then "..." else "")

/-- Command text recorded in the audit entry of executemany. -/
def cmdMany (sql : String) (paramsList : List String) : String :=
  let base := "EXECUTEMANY: " ++ sql ++ " (batch_size: " ++ toString paramsList.length ++ ")"
  if paramsList.isEmpty then base else base ++ " | Params: " ++ batchPreview paramsList

/-- Embedding of SimpleSQLDB.executemany: placeholder conversion is
unconditional, the batch is executed, the connection committed, and
one audit entry written; every exception is caught and logged the same
way as in execute. -/
def SimpleSQLDB.executemany (k : DbKind) (env : ExecEnv) (sql : String)
    (paramsList : List String) : ExecTrace :=
  match env.connErr with
  | some msg =>
    let result : SQLResult := { success := false, error := some msg }
    { result := result
      logs := [⟨cmdMany sql paramsList, result, (env.t0 + env.connDur) - env.t0⟩]
      committed := false
      executedStmts := [] }
  | none =>
    let stmt := convertPlaceholders k sql
    match env.execErr with
    | some msg =>
      let result : SQLResult := { success := false, error := some msg }
      { result := result
        logs := [⟨cmdMany sql paramsList, result, (env.t0 + env.connDur + env.execDur) - env.t0⟩]
        committed := false
        executedStmts := [stmt] }
    | none =>
      match env.commitErr with
      | some msg =>
        let result : SQLResult := { success := false, error := some msg }
        { result := result
          logs := [⟨cmdMany sql paramsList, result, (env.t0 + env.connDur + env.execDur) - env.t0⟩]
          committed := false
          executedStmts := [stmt] }
      | none =>
        let result : SQLResult := { success := true, row_count := some env.rowcount }
        { result := result
          logs := [⟨cmdMany sql paramsList, result, (env.t0 + env.connDur + env.execDur) - env.t0⟩]
          committed := true
          executedStmts := [stmt] }

/-- Embedding of the module-level execute convenience function: resolve
the logical name, look it up in the configuration (a failed lookup
raises ValueError out of the function, so no statement runs), then
delegate to the connection object.  The per-thread connection cache is
abstracted into the environment; a cached object exists only for names
whose configuration lookup once succeeded. -/
def execute (cfg : DbConfig) (env : ExecEnv) (sql : String)
    (dbName : Option String) (params : Option String) : Except String ExecTrace :=
  let resolved := _resolve_db_name cfg sql dbName
  match _get_db_config cfg resolved with
  | Except.error e => Except.error e
  | Except.ok (k, _) => Except.ok (SimpleSQLDB.execute k env sql params)

/-- Embedding of the module-level executemany convenience function. -/
def executemany (cfg : DbConfig) (env : ExecEnv) (sql : String)
    (paramsList : List String) (dbName : Option String) : Except String ExecTrace :=
  let resolved := _resolve_db_name cfg sql dbName
  match _get_db_config cfg resolved with
  | Except.error e => Except.error e
  | Except.ok (k, _) => Except.ok (SimpleSQLDB.executemany k env sql paramsList)

/-- Rejection message of the security gate. -/
def securityMsg : String := "Only SELECT, WITH, EXPLAIN, and PRAGMA statements are allowed"

/-- Embedding of the caller-facing sql_query entry point: a statement
failing the classifier is rejected with the security error and never
executed; otherwise the statement is run and its result returned.  The
surrounding except block converts any escaped exception (such as the
configuration ValueError) into an error dictionary; keys bound to None
in the source dictionaries are modeled as absent fields. -/
def sql_query (cfg : DbConfig) (env : ExecEnv) (sql : String)
    (dbName : Option String) (params : Option String) : SQLResult :=
  if !(_is_query_only sql) then
    { success := false, error := some securityMsg, message := some securityMsg }
  else
    match execute cfg env sql dbName params with
    | Except.ok tr => tr.result
    | Except.error e =>
      { success := false, error := some e
        message := some ("Error executing SQL query: " ++ e) }

/-!
The execution logger, from utils/exe_log.py.  Result values reach the
logger already serialized to text (json.dumps for dictionaries and
lists, str otherwise; the serialization is total on the values the
gateway produces), so a result is modeled as its optional serialized
string.  Timestamps are modeled as natural numbers ordered like the
datetime values of the source.  The backend selection is validated at
construction to be one of mysql, sqlite or file; each backend write
catches its own failures and reports success as a boolean.
-/

/-- Configured logging backend kind. -/
inductive LogType
  | mysql
  | sqlite
  | file
deriving DecidableEq, Repr

/-- Environment of one write_log call: the configured backend, the
current wall-clock instant (used when no execution time is supplied),
and the success of each backend write path. -/
structure LoggerEnv where
  logType : LogType
  now : Nat
  mysqlOk : Bool
  sqliteOk : Bool
  fileOk : Bool
deriving DecidableEq, Repr

/-- One entry of the per-thread in-memory log buffer. -/
structure ThreadLogEntry where
  user : String
  command : String
  result : Option String
  execution_time : Nat
  time_cost_ms : Nat
  command_type : String
deriving DecidableEq, Repr

/-- Success of the backend persistence write selected by the
configuration. -/
def backendWriteOk (env : LoggerEnv) : Bool :=
  match env.logType with
  | LogType.mysql => env.mysqlOk
  | LogType.sqlite => env.sqliteOk
  | LogType.file => env.fileOk

/-- Embedding of ExecutionLogger._write_log_impl: the execution time
defaults to the current instant, the entry is appended to the
thread-local buffer by _save_to_thread_logs before the backend write
is attempted, and the backend verdict is returned.  A backend failure
is reported through the returned boolean only; the buffer append has
already happened and is not undone. -/
def ExecutionLogger._write_log_impl (env : LoggerEnv) (buffer : List ThreadLogEntry)
    (user command : String) (resultStr : Option String)
    (executionTime : Option Nat) (timeCostMs : Nat) (commandType : String) :
    List ThreadLogEntry × Bool :=
  let et := executionTime.getD env.now
  let entry : ThreadLogEntry :=
    ⟨user, command, resultStr, et, timeCostMs, commandType⟩
  (buffer ++ [entry], backendWriteOk env)

/-- Embedding of ExecutionLogger.write_log: the user is taken from the
thread context, defaulting to the sentinel when never set. -/
def ExecutionLogger.write_log (env : LoggerEnv) (currentUser : Option String)
    (buffer : List ThreadLogEntry) (command : String) (resultStr : Option String)
    (executionTime : Option Nat) (timeCostMs : Nat) (commandType : String) :
    List ThreadLogEntry × Bool :=
  ExecutionLogger._write_log_impl env buffer (currentUser.getD ("system"))
    command resultStr executionTime timeCostMs commandType

/-!
The append-only JSON-lines file backend.  The store is the set of
daily log files, represented as its directory listing: an association
list from the day (of the entry timestamp) to the lines of that file
in append order.  Writing appends one self-contained record to the
file of the entry's day, creating the file if needed; the physical
listing is kept in the name order a fresh directory scan would
produce, which for date-stamped names is descending day order.
Querying sorts the file names in reverse, streams lines, applies the
conjunctive filters, and stops once the limit is reached.  A record
written as one JSON line parses back to itself, so serialization is
modeled as the identity on records.
-/

/-- One line of a daily log file. -/
structure FileLogRecord where
  timestamp : Nat
  user : String
  command : String
  result : Option String
  time_cost_ms : Nat
  command_type : String
deriving DecidableEq, Repr

/-- Directory of daily log files: day stamp paired with the file's
lines in append order. -/
abbrev FileStore := List (Nat × List FileLogRecord)

/-- Milliseconds per calendar day. -/
def dayLengthMs : Nat := 86400000

/-- Day stamp of a timestamp, as the date component used in the log
file name. -/
def dateOf (t : Nat) : Nat := t / dayLengthMs

/-- Append a record to the file of the given day, creating the file at
its place in the descending listing when absent. -/
def storeWrite : FileStore → Nat → FileLogRecord → FileStore
  | [], d, r => [(d, [r])]
  | (d0, rs) :: rest, d, r =>
    if d = d0 then (d0, rs ++ [r]) :: rest
    else if d0 < d then (d, [r]) :: (d0, rs) :: rest
    else (d0, rs) :: storeWrite rest d r

/-- Embedding of ExecutionLogger._write_file_log: build the log entry
record and append it as one line to the day's file. -/
def ExecutionLogger._write_file_log (S : FileStore) (user command : String)
    (resultStr : Option String) (executionTime : Nat) (timeCostMs : Nat)
    (commandType : String) : FileStore × Bool :=
  (storeWrite S (dateOf executionTime)
    ⟨executionTime, user, command, resultStr, timeCostMs, commandType⟩, true)

/-- Insertion into a listing sorted by descending day. -/
def insertDesc (b : Nat × List FileLogRecord) : FileStore → FileStore
  | [] => [b]
  | b0 :: rest => if b0.1 < b.1 then b :: b0 :: rest else b0 :: insertDesc b rest

/-- Model of sorting the directory listing by file name in reverse:
date-stamped names sort chronologically, so this is descending day
order. -/
def sortStoreDesc : FileStore → FileStore
  | [] => []
  | b :: rest => insertDesc b (sortStoreDesc rest)

/-- Lines of a listing in scan order: files as listed, each file's
lines in append order. -/
def storeLines : FileStore → List FileLogRecord
  | [] => []
  | b :: rest => b.2 ++ storeLines rest

/-- User filter as applied by the query loop: a falsy filter (absent or
empty) keeps every record, otherwise the user must match. -/
def userKeep (u : Option String) (r : FileLogRecord) : Bool :=
  match u with
  | none => true
  | some s => if s = ("") then true else r.user == s

/-- Conjunctive filter of a query: user, then lower time bound, then
upper time bound, each skipped when absent. -/
def matchRec (u : Option String) (st en : Option Nat) (r : FileLogRecord) : Bool :=
  userKeep u r
  && (match st with
      | none => true
      | some s => decide (s ≤ r.timestamp))
  && (match en with
      | none => true
      | some e => decide (r.timestamp ≤ e))

/-- Streaming collection loop of the file query: before each line the
accumulated count is checked against the limit, then the filters are
applied and a matching record collected. -/
def queryScan (p : FileLogRecord → Bool) : Nat → List FileLogRecord → List FileLogRecord
  | _, [] => []
  | n, r :: rs =>
    if n = 0 then []
    else if p r then r :: queryScan p (n - 1) rs
    else queryScan p n rs

/-- Embedding of ExecutionLogger._query_file_logs: sort the files
newest-first, stream their lines through the filters collecting at
most limit records, and truncate the collection to the limit. -/
def ExecutionLogger._query_file_logs (S : FileStore) (u : Option String)
    (st en : Option Nat) (limit : Nat) : List FileLogRecord :=
  (queryScan (matchRec u st en) limit (storeLines (sortStoreDesc S))).take limit

/-- Records that a fresh query scans before reaching the last line of
the day-d file: all lines of files of later days, then the lines
already in the day-d file. -/
def priorRecs (S : FileStore) (d : Nat) : List FileLogRecord :=
  storeLines (S.filter (fun b => decide (d < b.1))) ++
  storeLines (S.filter (fun b => decide (b.1 = d)))

/-- Records scanned after the day-d file: lines of files of earlier
days. -/
def laterRecs (S : FileStore) (d : Nat) : List FileLogRecord :=
  storeLines (S.filter (fun b => decide (b.1 < d)))

/-!
Concrete sample environments and configurations used by the closed
evaluation theorems below.
-/

/-- Driver environment in which every step succeeds: connection
acquisition takes 5 ms, statement execution 3 ms, the cursor reports
two columns and one row, rowcount 4 and lastrowid 7. -/
def sampleEnv : ExecEnv :=
  { t0 := 1000, connDur := 5, connErr := none, execDur := 3, execErr := none
    commitErr := none, cursorCols := [("id"), ("name")]
    rawRows := [[("1"), ("alice")]], rowcount := 4, lastrowidVal := some 7 }

/-- Driver environment whose connection acquisition raises. -/
def connFailEnv : ExecEnv :=
  { sampleEnv with connErr := some ("connect refused") }

/-- Driver environment whose cursor execution raises. -/
def execFailEnv : ExecEnv :=
  { sampleEnv with execErr := some ("no such table: t") }

/-- Driver environment whose commit raises. -/
def commitFailEnv : ExecEnv :=
  { sampleEnv with commitErr := some ("disk I/O error") }

/-- Driver environment for the timing counterexample: connection
acquisition takes 5 ms and statement execution 3 ms, with every step
succeeding. -/
def c6Env : ExecEnv :=
  { t0 := 2000, connDur := 5, connErr := none, execDur := 3, execErr := none
    commitErr := none, cursorCols := [], rawRows := [], rowcount := 0
    lastrowidVal := none }

/-- Sample configuration with one client-server and one embedded-file
database. -/
def sampleCfg : DbConfig :=
  { mysql := [(("orders"), ("pm"))], sqlite := [(("cache"), ("ps"))] }

/-- Sample logger environment using the file backend, whose persistence
write fails. -/
def fileFailLoggerEnv : LoggerEnv :=
  { logType := LogType.file, now := 5000, mysqlOk := true, sqliteOk := true
    fileOk := false }

/-!
Helper lemmas.  The comment strippers only ever emit characters of
their input, which settles the whitespace-only inputs of the
classifier; the store lemmas describe how a write placed in the daily
file listing is seen by a fresh query scan.
-/

theorem mem_of_mem_removeBlockGo {c : Char} :
    ∀ (flag : Bool) (l : List Char), c ∈ removeBlockGo flag l → c ∈ l := by
  intro flag l
  induction flag, l using removeBlockGo.induct with
  | case1 => simp [removeBlockGo]
  | case2 rest h ih =>
    intro hc
    simp only [removeBlockGo, if_pos h] at hc
    exact List.mem_cons_of_mem _ (List.mem_cons_of_mem _ (ih hc))
  | case3 rest h =>
    simp only [removeBlockGo, if_neg h]
    exact fun hc => hc
  | case4 c' rest hsh ih =>
    intro hc
    simp only [removeBlockGo] at hc
    rcases List.mem_cons.mp hc with h' | h'
    · exact h' ▸ List.mem_cons_self _ _
    · exact List.mem_cons_of_mem _ (ih h')
  | case5 => simp [removeBlockGo]
  | case6 rest ih =>
    intro hc
    simp only [removeBlockGo] at hc
    exact List.mem_cons_of_mem _ (List.mem_cons_of_mem _ (ih hc))
  | case7 c' rest hsh ih =>
    intro hc
    simp only [removeBlockGo] at hc
    exact List.mem_cons_of_mem _ (ih hc)

theorem mem_of_mem_dropLineComment {c : Char} :
    ∀ (flag : Bool) (l : List Char), c ∈ dropLineComment flag l → c ∈ l := by
  intro flag l
  induction flag, l using dropLineComment.induct with
  | case1 => simp [dropLineComment]
  | case2 rest ih =>
    intro hc
    simp only [dropLineComment] at hc
    rcases List.mem_cons.mp hc with h' | h'
    · exact h' ▸ List.mem_cons_self _ _
    · exact List.mem_cons_of_mem _ (ih h')
  | case3 c' rest h ih =>
    intro hc
    simp only [dropLineComment, if_neg h] at hc
    exact List.mem_cons_of_mem _ (ih hc)
  | case4 rest ih =>
    intro hc
    simp only [dropLineComment] at hc
    exact List.mem_cons_of_mem _ (List.mem_cons_of_mem _ (ih hc))
  | case5 c' rest hsh ih =>
    intro hc
    simp only [dropLineComment] at hc
    rcases List.mem_cons.mp hc with h' | h'
    · exact h' ▸ List.mem_cons_self _ _
    · exact List.mem_cons_of_mem _ (ih h')

theorem gateLower_eq_nil_of_space {sql : String}
    (h : ∀ c ∈ sql.toList, isSpaceChar c = true) : gateLower sql = [] := by
  have h2 : ∀ c ∈ removeLineComments (removeBlockComments sql.toList), isSpaceChar c = true :=
    fun c hc =>
      h c (mem_of_mem_removeBlockGo _ _ (mem_of_mem_dropLineComment _ _ hc))
  have h3 : pyStrip (removeLineComments (removeBlockComments sql.toList)) = [] := by
    unfold pyStrip
    rw [List.dropWhile_eq_nil_iff.mpr h2]
    simp
  unfold gateLower gateCleaned
  rw [h3]
  rfl

theorem storeWrite_keys {S : FileStore} {d : Nat} {r : FileLogRecord} :
    ∀ b ∈ storeWrite S d r, b.1 = d ∨ b ∈ S := by
  induction S with
  | nil =>
    intro b hb
    simp [storeWrite] at hb
    subst hb
    exact Or.inl rfl
  | cons b0 rest ih =>
    obtain ⟨d0, rs⟩ := b0
    intro b hb
    by_cases h1 : d = d0
    · subst h1
      simp [storeWrite] at hb
      rcases hb with h | h
      · subst h
        exact Or.inl rfl
      · exact Or.inr (List.mem_cons_of_mem _ h)
    · by_cases h2 : d0 < d
      · simp [storeWrite, if_neg h1, if_pos h2] at hb
        rcases hb with h | h | h
        · subst h
          exact Or.inl rfl
        · subst h
          exact Or.inr (List.mem_cons_self _ _)
        · exact Or.inr (List.mem_cons_of_mem _ h)
      · simp [storeWrite, if_neg h1, if_neg h2] at hb
        rcases hb with h | h
        · subst h
          exact Or.inr (List.mem_cons_self _ _)
        · rcases ih b h with h' | h'
          · exact Or.inl h'
          · exact Or.inr (List.mem_cons_of_mem _ h')

theorem storeWrite_pairwise {S : FileStore} {d : Nat} {r : FileLogRecord}
    (h : List.Pairwise (fun a b => b.1 < a.1) S) :
    List.Pairwise (fun a b => b.1 < a.1) (storeWrite S d r) := by
  induction S with
  | nil => simp [storeWrite]
  | cons b0 rest ih =>
    obtain ⟨d0, rs⟩ := b0
    rcases List.pairwise_cons.mp h with ⟨hb, hrest⟩
    by_cases h1 : d = d0
    · subst h1
      simp only [storeWrite, if_pos rfl]
      exact List.pairwise_cons.mpr ⟨hb, hrest⟩
    · by_cases h2 : d0 < d
      · simp only [storeWrite, if_neg h1, if_pos h2]
        refine List.pairwise_cons.mpr ⟨?_, h⟩
        intro a ha
        rcases List.mem_cons.mp ha with h' | h'
        · subst h'
          exact h2
        · exact lt_trans (hb a h') h2
      · simp only [storeWrite, if_neg h1, if_neg h2]
        refine List.pairwise_cons.mpr ⟨?_, ih hrest⟩
        intro a ha
        rcases storeWrite_keys a ha with h' | h'
        · omega
        · exact hb a h'

theorem insertDesc_eq_cons {b : Nat × List FileLogRecord} {l : FileStore}
    (h : ∀ x ∈ l, x.1 < b.1) : insertDesc b l = b :: l := by
  cases l with
  | nil => rfl
  | cons b0 rest =>
    simp [insertDesc, h b0 (List.mem_cons_self _ _)]

theorem sortStoreDesc_eq_of_pairwise {S : FileStore}
    (h : List.Pairwise (fun a b => b.1 < a.1) S) : sortStoreDesc S = S := by
  induction S with
  | nil => rfl
  | cons b rest ih =>
    rcases List.pairwise_cons.mp h with ⟨hb, hrest⟩
    rw [sortStoreDesc, ih hrest, insertDesc_eq_cons hb]

theorem storeWrite_storeLines {S : FileStore} {d : Nat} {r : FileLogRecord}
    (h : List.Pairwise (fun a b => b.1 < a.1) S) :
    storeLines (storeWrite S d r) = priorRecs S d ++ r :: laterRecs S d := by
  induction S with
  | nil => simp [storeWrite, storeLines, priorRecs, laterRecs]
  | cons b0 rest ih =>
    obtain ⟨d0, rs⟩ := b0
    rcases List.pairwise_cons.mp h with ⟨hb, hrest⟩
    by_cases h1 : d = d0
    · subst h1
      have hf1 : rest.filter (fun x => decide (d < x.1)) = [] := by
        rw [List.filter_eq_nil_iff]
        intro a ha
        have := hb a ha
        simp
        omega
      have hf2 : rest.filter (fun x => decide (x.1 = d)) = [] := by
        rw [List.filter_eq_nil_iff]
        intro a ha
        have := hb a ha
        simp
        omega
      have hf3 : rest.filter (fun x => decide (x.1 < d)) = rest := by
        rw [List.filter_eq_self]
        intro a ha
        have := hb a ha
        simp
        omega
      simp [storeWrite, priorRecs, laterRecs, storeLines, hf1, hf2, hf3,
        List.filter_cons_of_neg, List.filter_cons_of_pos]
    · by_cases h2 : d0 < d
      · have hall : ∀ a ∈ (d0, rs) :: rest, a.1 < d := by
          intro a ha
          rcases List.mem_cons.mp ha with h' | h'
          · subst h'
            exact h2
          · exact lt_trans (hb a h') h2
        have hf1 : ((d0, rs) :: rest).filter (fun x => decide (d < x.1)) = [] := by
          rw [List.filter_eq_nil_iff]
          intro a ha
          have := hall a ha
          simp
          omega
        have hf2 : ((d0, rs) :: rest).filter (fun x => decide (x.1 = d)) = [] := by
          rw [List.filter_eq_nil_iff]
          intro a ha
          have := hall a ha
          simp
          omega
        have hf3 : ((d0, rs) :: rest).filter (fun x => decide (x.1 < d)) = (d0, rs) :: rest := by
          rw [List.filter_eq_self]
          intro a ha
          have := hall a ha
          simp
          omega
        simp only [storeWrite, if_neg h1, if_pos h2, priorRecs, laterRecs, hf1, hf2, hf3]
        simp [storeLines]
      · have h3 : d < d0 := by omega
        have hc1 : ((d0, rs) :: rest).filter (fun x => decide (d < x.1))
            = (d0, rs) :: rest.filter (fun x => decide (d < x.1)) := by
          rw [List.filter_cons_of_pos]
          simp
          omega
        have hc2 : ((d0, rs) :: rest).filter (fun x => decide (x.1 = d))
            = rest.filter (fun x => decide (x.1 = d)) := by
          rw [List.filter_cons_of_neg]
          simp
          omega
        have hc3 : ((d0, rs) :: rest).filter (fun x => decide (x.1 < d))
            = rest.filter (fun x => decide (x.1 < d)) := by
          rw [List.filter_cons_of_neg]
          simp
          omega
        simp only [storeWrite, if_neg h1, if_neg h2, priorRecs, laterRecs, hc1, hc2, hc3]
        rw [storeLines, storeLines, ih hrest]
        simp only [priorRecs, laterRecs]
        simp

theorem queryScan_eq_take (p : FileLogRecord → Bool) :
    ∀ (l : List FileLogRecord) (n : Nat), queryScan p n l = (l.filter p).take n := by
  intro l
  induction l with
  | nil => intro n; simp [queryScan]
  | cons r rs ih =>
    intro n
    cases n with
    | zero => simp [queryScan]
    | succ m =>
      by_cases hp : p r = true
      · rw [queryScan, if_neg (Nat.succ_ne_zero m), if_pos hp,
          List.filter_cons_of_pos hp]
        simp [ih]
      · rw [queryScan, if_neg (Nat.succ_ne_zero m), if_neg hp,
          List.filter_cons_of_neg hp]
        exact ih _

theorem mem_take_append {α : Type} (a : α) :
    ∀ (A C : List α) (n : Nat), A.length < n → a ∈ (A ++ a :: C).take n := by
  intro A
  induction A with
  | nil =>
    intro C n hn
    cases n with
    | zero => omega
    | succ m => simp
  | cons x A' ih =>
    intro C n hn
    cases n with
    | zero => omega
    | succ m =>
      simp only [List.cons_append, List.take_succ_cons]
      exact List.mem_cons_of_mem _ (ih C m (by simpa using Nat.lt_of_succ_lt_succ hn))

/-!
Claim theorems.
-/

/-- C1 (counterexample): the claim asserts that a statement containing
a forbidden keyword after a statement separator is denied, and in
particular that classifying the stacked text below returns false; the
classifier in fact returns true, because the allowed-prefix check runs
first and the cleaned text starts with select. -/
theorem stacked_select_statement_passes_gate :
    _is_query_only ("SELECT * FROM t; DROP TABLE t") = true := by decide

/-- C1 (amended): a forbidden keyword anywhere in the cleaned text —
in particular after a statement separator — yields deny only for
statements whose cleaned lower-cased text does not start with an
allowed keyword; for those statements the classifier indeed returns
false. -/
theorem forbidden_keyword_denied_without_allowed_prefix :
    ∀ sql : String, startsAllowed (gateLower sql) = false →
      hasForbidden (gateLower sql) = true → _is_query_only sql = false := by
  intro sql h1 h2
  simp [_is_query_only, h1, h2]

/-- C1 (witness): a stacked statement that does not start with an
allowed keyword, with the forbidden keyword after the separator, is
denied. -/
theorem forbidden_keyword_denied_without_allowed_prefix_witness :
    startsAllowed (gateLower ("vacuum x; DROP TABLE t")) = false ∧
    hasForbidden (gateLower ("vacuum x; DROP TABLE t")) = true ∧
    _is_query_only ("vacuum x; DROP TABLE t") = false :=
  ⟨by decide, by decide,
    forbidden_keyword_denied_without_allowed_prefix _ (by decide) (by decide)⟩

/-- C2: a cleaned text starting with an allowed keyword is classified
true; empty or whitespace-only input is classified false; a cleaned
text with neither an allowed prefix nor any forbidden whole-word
keyword is classified false (fail closed). -/
theorem gate_allow_prefixes_and_fail_closed :
    (∀ sql : String, startsAllowed (gateLower sql) = true → _is_query_only sql = true) ∧
    (∀ sql : String, (∀ c ∈ sql.toList, isSpaceChar c = true) → _is_query_only sql = false) ∧
    (∀ sql : String, startsAllowed (gateLower sql) = false →
      hasForbidden (gateLower sql) = false → _is_query_only sql = false) := by
  refine ⟨?_, ?_, ?_⟩
  · intro sql h
    simp [_is_query_only, h]
  · intro sql h
    have hnil := gateLower_eq_nil_of_space h
    simp only [_is_query_only, hnil]
    decide
  · intro sql h1 h2
    simp [_is_query_only, h1, h2]

/-- C2 (witness): the three clauses applied to a select statement, a
whitespace-only input and an unrecognized statement shape. -/
theorem gate_allow_prefixes_and_fail_closed_witness :
    (startsAllowed (gateLower ("SELECT 1")) = true ∧ _is_query_only ("SELECT 1") = true) ∧
    ((∀ c ∈ ("  ").toList, isSpaceChar c = true) ∧ _is_query_only ("  ") = false) ∧
    (startsAllowed (gateLower ("vacuum main")) = false ∧
      hasForbidden (gateLower ("vacuum main")) = false ∧
      _is_query_only ("vacuum main") = false) :=
  ⟨⟨by decide, gate_allow_prefixes_and_fail_closed.1 _ (by decide)⟩,
   ⟨by decide, gate_allow_prefixes_and_fail_closed.2.1 _ (by decide)⟩,
   ⟨by decide, by decide,
     gate_allow_prefixes_and_fail_closed.2.2 _ (by decide) (by decide)⟩⟩

/-- C5: every write_log call appends the structured entry to the
calling thread's buffer unconditionally, and the returned boolean is
exactly the verdict of the configured backend write, so a failed
persistence write returns false without preventing or undoing the
append. -/
theorem write_log_appends_buffer_regardless_of_backend :
    ∀ (env : LoggerEnv) (currentUser : Option String) (buffer : List ThreadLogEntry)
      (command : String) (resultStr : Option String) (executionTime : Option Nat)
      (timeCostMs : Nat) (commandType : String),
      (ExecutionLogger.write_log env currentUser buffer command resultStr
          executionTime timeCostMs commandType).1
        = buffer ++ [⟨currentUser.getD ("system"), command, resultStr,
            executionTime.getD env.now, timeCostMs, commandType⟩] ∧
      (ExecutionLogger.write_log env currentUser buffer command resultStr
          executionTime timeCostMs commandType).2 = backendWriteOk env := by
  intro env currentUser buffer command resultStr executionTime timeCostMs commandType
  exact ⟨rfl, rfl⟩

/-- C6 (counterexample): the claim asserts that the logged time_cost_ms
measures the statement execution only, excluding connection
acquisition; in the environment below execution takes 3 ms and
connection acquisition 5 ms, and the logged duration is 8 ms, not
3 ms, because the clock is read before the connection is obtained. -/
theorem time_cost_includes_connection_acquisition :
    (SimpleSQLDB.execute DbKind.sqlite c6Env ("SELECT 1") none).logs.map
        (fun entry => entry.time_cost_ms) = [c6Env.connDur + c6Env.execDur] ∧
    c6Env.connDur + c6Env.execDur ≠ c6Env.execDur := by
  exact ⟨by decide, by decide⟩

/-- C6 (amended): the time_cost_ms recorded in the audit entry of a
successful execute call measures the elapsed wall-clock time from the
entry of the call — including connection acquisition — through
statement execution. -/
theorem time_cost_measured_from_call_entry :
    ∀ (k : DbKind) (env : ExecEnv) (sql : String) (params : Option String),
      env.connErr = none → env.execErr = none → env.commitErr = none →
      (SimpleSQLDB.execute k env sql params).logs.map (fun entry => entry.time_cost_ms)
        = [env.connDur + env.execDur] := by
  intro k env sql params h1 h2 h3
  simp only [SimpleSQLDB.execute, h1, h2, h3]
  split <;> simp <;> omega

/-- C6 (amended, witness): the amended statement evaluated in the
sample environment. -/
theorem time_cost_measured_from_call_entry_witness :
    (SimpleSQLDB.execute DbKind.sqlite sampleEnv ("SELECT 1") none).logs.map
        (fun entry => entry.time_cost_ms) = [sampleEnv.connDur + sampleEnv.execDur] :=
  time_cost_measured_from_call_entry DbKind.sqlite sampleEnv ("SELECT 1") none rfl rfl rfl

/-- C8: database-name resolution uses an explicit name verbatim,
otherwise the captured database part of the first matching qualified
reference pattern, otherwise the first configured embedded-file
database; in particular the two concrete scenarios of the claim. -/
theorem resolve_db_name_contract :
    (∀ (cfg : DbConfig) (sql n : String), _resolve_db_name cfg sql (some n) = n) ∧
    (∀ (cfg : DbConfig) (sql p : String),
      _parse_db_name_from_sql sql = some p → p ≠ ("") →
      _resolve_db_name cfg sql none = p) ∧
    (∀ (cfg : DbConfig) (sql : String),
      _parse_db_name_from_sql sql = none →
      _resolve_db_name cfg sql none = _get_first_sqlite_db cfg) ∧
    _parse_db_name_from_sql ("SELECT * FROM analytics.events") = some ("analytics") ∧
    (∀ cfg : DbConfig, _resolve_db_name cfg ("SELECT 1") none = _get_first_sqlite_db cfg) := by
  refine ⟨?_, ?_, ?_, by decide, ?_⟩
  · intro cfg sql n
    rfl
  · intro cfg sql p h1 h2
    simp [_resolve_db_name, h1, h2]
  · intro cfg sql h
    simp [_resolve_db_name, h]
  · intro cfg
    have h : _parse_db_name_from_sql ("SELECT 1") = none := by decide
    simp [_resolve_db_name, h]

/-- C8 (witness): the conditional clauses applied to the concrete
statements of the claim. -/
theorem resolve_db_name_contract_witness :
    _resolve_db_name sampleCfg ("SELECT * FROM analytics.events") none = ("analytics") ∧
    _resolve_db_name sampleCfg ("SELECT 1") none = _get_first_sqlite_db sampleCfg :=
  ⟨resolve_db_name_contract.2.1 sampleCfg _ _ (by decide) (by decide),
   resolve_db_name_contract.2.2.1 sampleCfg _ (by decide)⟩

/-- C3: every call to the connection layer's execute or executemany
writes exactly one audit entry, on the success path and on every
exception path alike. -/
theorem connection_layer_logs_exactly_once :
    (∀ (k : DbKind) (env : ExecEnv) (sql : String) (params : Option String),
      (SimpleSQLDB.execute k env sql params).logs.length = 1) ∧
    (∀ (k : DbKind) (env : ExecEnv) (sql : String) (paramsList : List String),
      (SimpleSQLDB.executemany k env sql paramsList).logs.length = 1) := by
  constructor
  · intro k env sql params
    unfold SimpleSQLDB.execute
    cases env.connErr <;> cases env.execErr <;> cases env.commitErr <;>
      simp <;> split <;> simp
  · intro k env sql paramsList
    unfold SimpleSQLDB.executemany
    cases env.connErr <;> cases env.execErr <;> cases env.commitErr <;> simp

/-- C4: every driver exception inside execute or executemany —
connection acquisition, cursor execution, or commit — is caught,
converted into a failure result carrying the exception message, logged
with the duration measured by the same clock reads, and returned as an
ordinary result; the three clauses below exhibit the full returned
trace for each raise site of both entry points. -/
theorem execution_errors_caught_and_logged :
    ∀ (k : DbKind) (env : ExecEnv) (sql : String) (params : Option String)
      (paramsList : List String) (msg : String),
      (env.connErr = some msg →
        SimpleSQLDB.execute k env sql params =
          { result := { success := false, error := some msg }
            logs := [⟨cmdWithParams sql params,
              { success := false, error := some msg }, env.connDur⟩]
            committed := false, executedStmts := [] } ∧
        SimpleSQLDB.executemany k env sql paramsList =
          { result := { success := false, error := some msg }
            logs := [⟨cmdMany sql paramsList,
              { success := false, error := some msg }, env.connDur⟩]
            committed := false, executedStmts := [] }) ∧
      (env.connErr = none → env.execErr = some msg →
        SimpleSQLDB.execute k env sql params =
          { result := { success := false, error := some msg }
            logs := [⟨cmdWithParams sql params,
              { success := false, error := some msg }, env.connDur + env.execDur⟩]
            committed := false, executedStmts := [attemptedStmt k sql params] } ∧
        SimpleSQLDB.executemany k env sql paramsList =
          { result := { success := false, error := some msg }
            logs := [⟨cmdMany sql paramsList,
              { success := false, error := some msg }, env.connDur + env.execDur⟩]
            committed := false, executedStmts := [convertPlaceholders k sql] }) ∧
      (env.connErr = none → env.execErr = none → env.commitErr = some msg →
        (startsWithSelect sql = false →
          SimpleSQLDB.execute k env sql params =
            { result := { success := false, error := some msg }
              logs := [⟨cmdWithParams sql params,
                { success := false, error := some msg }, env.connDur + env.execDur⟩]
              committed := false, executedStmts := [attemptedStmt k sql params] }) ∧
        SimpleSQLDB.executemany k env sql paramsList =
          { result := { success := false, error := some msg }
            logs := [⟨cmdMany sql paramsList,
              { success := false, error := some msg }, env.connDur + env.execDur⟩]
            committed := false, executedStmts := [convertPlaceholders k sql] }) := by
  intro k env sql params paramsList msg
  refine ⟨?_, ?_, ?_⟩
  · intro h1
    constructor <;> simp [SimpleSQLDB.execute, SimpleSQLDB.executemany, h1]
  · intro h1 h2
    constructor <;>
      simp [SimpleSQLDB.execute, SimpleSQLDB.executemany, h1, h2] <;> omega
  · intro h1 h2 h3
    constructor
    · intro hsel
      simp [SimpleSQLDB.execute, h1, h2, h3, hsel]
      omega
    · simp [SimpleSQLDB.executemany, h1, h2, h3]
      omega

/-- C4 (witness): the three clauses evaluated in environments whose
connection, execution and commit step respectively raise. -/
theorem execution_errors_caught_and_logged_witness :
    (SimpleSQLDB.execute DbKind.sqlite connFailEnv ("UPDATE t SET a = 1") none).result
      = { success := false, error := some ("connect refused") } ∧
    (SimpleSQLDB.execute DbKind.sqlite execFailEnv ("SELECT * FROM t") none).result
      = { success := false, error := some ("no such table: t") } ∧
    (SimpleSQLDB.execute DbKind.sqlite commitFailEnv ("UPDATE t SET a = 1") none).result
      = { success := false, error := some ("disk I/O error") } ∧
    (SimpleSQLDB.executemany DbKind.sqlite execFailEnv ("UPDATE t SET a = ?") [("(1,)")]).result
      = { success := false, error := some ("no such table: t") } := by
  refine ⟨?_, ?_, ?_, ?_⟩
  · rw [((execution_errors_caught_and_logged DbKind.sqlite connFailEnv
      ("UPDATE t SET a = 1") none [] ("connect refused")).1 rfl).1]
  · rw [((execution_errors_caught_and_logged DbKind.sqlite execFailEnv
      ("SELECT * FROM t") none [] ("no such table: t")).2.1 rfl rfl).1]
  · rw [((execution_errors_caught_and_logged DbKind.sqlite commitFailEnv
      ("UPDATE t SET a = 1") none [] ("disk I/O error")).2.2 rfl rfl rfl).1 (by decide)]
  · rw [((execution_errors_caught_and_logged DbKind.sqlite execFailEnv
      ("UPDATE t SET a = ?") none [("(1,)")] ("no such table: t")).2.1 rfl rfl).2]

/-- C7: when the resolved logical database name of an execute or
executemany call is configured neither as a client-server nor as an
embedded-file database, the call returns the ValueError raised by the
configuration lookup and no statement is executed — the error branch
carries no execution trace, so the connection layer is never
entered. -/
theorem unresolved_db_name_is_config_error :
    ∀ (cfg : DbConfig) (env : ExecEnv) (sql : String) (dbName : Option String)
      (params : Option String) (paramsList : List String),
      cfg.mysql.lookup (_resolve_db_name cfg sql dbName) = none →
      cfg.sqlite.lookup (_resolve_db_name cfg sql dbName) = none →
      execute cfg env sql dbName params
        = Except.error (dbNotFoundMsg cfg (_resolve_db_name cfg sql dbName)) ∧
      executemany cfg env sql paramsList dbName
        = Except.error (dbNotFoundMsg cfg (_resolve_db_name cfg sql dbName)) := by
  intro cfg env sql dbName params paramsList h1 h2
  constructor <;> simp [execute, executemany, _get_db_config, h1, h2]

/-- C7 (witness): a statement routed to an unconfigured database name
fails with the configuration error. -/
theorem unresolved_db_name_is_config_error_witness :
    execute sampleCfg sampleEnv ("SELECT * FROM nodb.t") none none
      = Except.error (dbNotFoundMsg sampleCfg
          (_resolve_db_name sampleCfg ("SELECT * FROM nodb.t") none)) :=
  (unresolved_db_name_is_config_error sampleCfg sampleEnv
    ("SELECT * FROM nodb.t") none none [] (by decide) (by decide)).1

/-- C9: a log entry persisted by the file backend is returned by a
subsequent query whose filters match it — its user, a time window
containing its execution time — as long as the matching records a
fresh scan visits before it do not already exhaust the limit; the
returned record carries the identical command, time_cost_ms and
user. -/
theorem file_log_roundtrip :
    ∀ (S : FileStore) (u cmd : String) (res : Option String) (ts tc : Nat)
      (ct : String) (s e limit : Nat),
      List.Pairwise (fun a b => b.1 < a.1) S →
      s ≤ ts → ts ≤ e →
      ((priorRecs S (dateOf ts)).filter (matchRec (some u) (some s) (some e))).length < limit →
      ∃ r, r ∈ ExecutionLogger._query_file_logs
          (ExecutionLogger._write_file_log S u cmd res ts tc ct).1
          (some u) (some s) (some e) limit ∧
        r.command = cmd ∧ r.time_cost_ms = tc ∧ r.user = u := by
  intro S u cmd res ts tc ct s e limit hsort hs he hlim
  have hp : matchRec (some u) (some s) (some e) ⟨ts, u, cmd, res, tc, ct⟩ = true := by
    by_cases hu : u = ("")
    · simp [matchRec, userKeep, hs, he, hu]
    · simp [matchRec, userKeep, hs, he, hu]
  refine ⟨⟨ts, u, cmd, res, tc, ct⟩, ?_, rfl, rfl, rfl⟩
  unfold ExecutionLogger._query_file_logs ExecutionLogger._write_file_log
  rw [sortStoreDesc_eq_of_pairwise (storeWrite_pairwise hsort)]
  rw [storeWrite_storeLines hsort]
  rw [queryScan_eq_take]
  rw [List.filter_append, List.filter_cons_of_pos hp]
  rw [List.take_take, Nat.min_self]
  exact mem_take_append _ _ _ limit hlim

/-- C9 (witness): a write into an empty store, queried back with the
entry's user and a window around its execution time. -/
theorem file_log_roundtrip_witness :
    ∃ r, r ∈ ExecutionLogger._query_file_logs
        (ExecutionLogger._write_file_log [] ("alice") ("SELECT 1") (some ("ok"))
          1000 12 ("sql")).1
        (some ("alice")) (some 0) (some 2000) 1 ∧
      r.command = ("SELECT 1") ∧ r.time_cost_ms = 12 ∧ r.user = ("alice") :=
  file_log_roundtrip [] ("alice") ("SELECT 1") (some ("ok")) 1000 12 ("sql") 0 2000 1
    List.Pairwise.nil (by decide) (by decide) (by decide)

/-- C10: a statement whose cleaned lower-cased text begins with with,
explain or pragma passes the security gate, while the connection layer
fetches rows only when the literal statement text starts with SELECT:
every other successfully executed statement takes the write branch,
committing the connection and returning a result that carries
row_count and lastrowid but neither data nor columns. -/
theorem allowed_non_select_statements_take_write_branch :
    (∀ (sql : String) (w : List Char),
      w ∈ [("with").toList, ("explain").toList, ("pragma").toList] →
      List.isPrefixOf w (gateLower sql) = true → _is_query_only sql = true) ∧
    (∀ (k : DbKind) (env : ExecEnv) (sql : String) (params : Option String),
      startsWithSelect sql = false → env.connErr = none → env.execErr = none →
      env.commitErr = none →
      (SimpleSQLDB.execute k env sql params).committed = true ∧
      (SimpleSQLDB.execute k env sql params).result =
        { success := true, row_count := some env.rowcount
          lastrowid := some env.lastrowidVal }) := by
  constructor
  · intro sql w hw hpre
    have hallow : startsAllowed (gateLower sql) = true := by
      simp only [startsAllowed, List.any_eq_true]
      refine ⟨w, ?_, hpre⟩
      rcases List.mem_cons.mp hw with h | h
      · subst h
        decide
      rcases List.mem_cons.mp h with h' | h'
      · subst h'
        decide
      rcases List.mem_cons.mp h' with h'' | h''
      · subst h''
        decide
      · simp at h''
    simp [_is_query_only, hallow]
  · intro k env sql params hsel h1 h2 h3
    constructor <;> simp [SimpleSQLDB.execute, h1, h2, h3, hsel]

/-- C10 (witness): a pragma statement passes the gate, and a WITH
statement executed in the sample environment commits and returns the
write-branch result shape. -/
theorem allowed_non_select_statements_take_write_branch_witness :
    _is_query_only ("PRAGMA table_info(users)") = true ∧
    (SimpleSQLDB.execute DbKind.sqlite sampleEnv
        ("WITH t AS (SELECT 1) SELECT * FROM t") none).committed = true ∧
    (SimpleSQLDB.execute DbKind.sqlite sampleEnv
        ("WITH t AS (SELECT 1) SELECT * FROM t") none).result =
      { success := true, row_count := some sampleEnv.rowcount
        lastrowid := some sampleEnv.lastrowidVal } :=
  ⟨allowed_non_select_statements_take_write_branch.1 _ (("pragma").toList)
      (by decide) (by decide),
   (allowed_non_select_statements_take_write_branch.2 DbKind.sqlite sampleEnv
      _ none (by decide) rfl rfl rfl).1,
   (allowed_non_select_statements_take_write_branch.2 DbKind.sqlite sampleEnv
      _ none (by decide) rfl rfl rfl).2⟩
